import Mathlib

/-!
Verification of the model-format validator (client validation service,
"validationService" object). The TypeScript functions are embedded as total
Lean functions:

- machine reads (DataView.getUint32 little-endian) become arithmetic on a
  byte list (each byte is taken modulo 256, the identity on real octets);
- the JavaScript builtins the service calls (JSON.parse restricted to the
  glTF fields the service reads, TextDecoder/FileReader text decoding,
  JSZip.loadAsync) are supplied as an explicit environment of functions;
  a thrown exception is represented as an Except.error carrying the
  exception message, matching each try/catch site of the source;
- the progress callback (onStageUpdate) is modelled by returning the list
  of stage snapshots in the order the callback would receive them.
-/

/-- Status strings are kept as raw strings, exactly as the source stores
them in the stage records and the final verdict. -/
abbrev StatusStr := String

/-- Substring test used to model the JavaScript String.prototype.includes
call in the JSZip catch branch of validateZIP. -/
def strContainsSub (s pat : String) : Bool :=
  let rec go : List Char → Bool
    | [] => pat.toList.isPrefixOf []
    | c :: rest => pat.toList.isPrefixOf (c :: rest) || go rest
  go s.toList

/-- Index of the last occurrence of a character, counting in characters;
models String.prototype.lastIndexOf returning -1 as none. -/
def lastIdxOf (c : Char) (s : String) : Option Nat :=
  let rec go : List Char → Nat → Option Nat
    | [], _ => none
    | x :: rest, i =>
      match go rest (i + 1) with
      | some j => some j
      | none => if x = c then some i else none
  go s.toList 0

/-- Byte fetch with out-of-range default 0; the source always guards reads
with a length check, so the default is never observable there. Real octets
are below 256, so the modulus is the identity on them. -/
def byteAt (bs : List Nat) (i : Nat) : Nat :=
  (bs.getD i 0) % 256

/-- Little-endian 32-bit read, modelling DataView.getUint32(offset, true). -/
def readU32 (bs : List Nat) (o : Nat) : Nat :=
  byteAt bs o + 256 * byteAt bs (o + 1) + 65536 * byteAt bs (o + 2) +
    16777216 * byteAt bs (o + 3)

/-- ASCII lowering of one character, as toLowerCase acts on the ASCII
range of the names handled here. -/
def lcChar (c : Char) : Char :=
  if 65 ≤ c.toNat ∧ c.toNat ≤ 90 then Char.ofNat (c.toNat + 32) else c

/-- ASCII raising of one character, as toUpperCase acts on the ASCII
range of the extensions handled here. -/
def ucChar (c : Char) : Char :=
  if 97 ≤ c.toNat ∧ c.toNat ≤ 122 then Char.ofNat (c.toNat - 32) else c

/-- Models String.prototype.toLowerCase on ASCII data. -/
def strToLower (s : String) : String := String.mk (s.toList.map lcChar)

/-- Models String.prototype.toUpperCase on ASCII data. -/
def strToUpper (s : String) : String := String.mk (s.toList.map ucChar)

/-- Models String.prototype.startsWith. -/
def strStartsWith (s pre : String) : Bool := pre.toList.isPrefixOf s.toList

/-- Models String.prototype.endsWith. -/
def strEndsWith (s post : String) : Bool :=
  post.toList.reverse.isPrefixOf s.toList.reverse

/-- Character-level split on the slash, keeping empty groups, exactly as
String.prototype.split keeps them. -/
def splitSlashCh : List Char → List (List Char)
  | [] => [[]]
  | c :: rest =>
    let r := splitSlashCh rest
    if c = '/' then [] :: r
    else
      match r with
      | [] => [[c]]
      | g :: gs => (c :: g) :: gs

/-- Models String.prototype.split applied to the slash separator. -/
def splitSlash (s : String) : List String :=
  (splitSlashCh s.toList).map String.mk

/-- Two-digit zero padding for the fractional part of a fixed-point print. -/
def pad2 (n : Nat) : String :=
  if n < 10 then "0" ++ toString n else toString n

/-- Models the interpolation (size / 1024 / 1024).toFixed(2) used in the
size messages: the value in hundredths of a megabyte, rounded to nearest.
Rounding at IEEE double precision is not tracked; no theorem below depends
on this string. -/
def mbStr (size : Nat) : String :=
  let hundredths := (size * 100 + 524288) / 1048576
  toString (hundredths / 100) ++ "." ++ pad2 (hundredths % 100)

/-- Result of the JavaScript parseFloat builtin: NaN, an infinity, or a
finite decimal denoting mantissa times ten to the scale, idealized as an
exact decimal (the source only compares the result against 2.0, far from
any double rounding boundary relevant to the embedded documents). -/
inductive JsFloat where
  | nan : JsFloat
  | posInf : JsFloat
  | negInf : JsFloat
  | dec : Int → Int → JsFloat
deriving DecidableEq, Repr

/-- Power of ten, by plain recursion so that it evaluates by kernel
reduction. -/
def pow10 : Nat → Nat
  | 0 => 1
  | k + 1 => 10 * pow10 k

/-- Whitespace skipped by parseFloat (ASCII forms). -/
def isJsSpace (c : Char) : Bool :=
  c = ' ' || c = '\t' || c = '\n' || c = '\r' || c = '\x0b' || c = '\x0c'

/-- Digit span helper. -/
def spanDigits (cs : List Char) : List Char × List Char :=
  (cs.takeWhile Char.isDigit, cs.dropWhile Char.isDigit)

/-- Digits to a natural number. -/
def digitsToNat (ds : List Char) : Nat :=
  ds.foldl (fun acc d => acc * 10 + (d.toNat - 48)) 0

/-- Models the JavaScript parseFloat builtin on the string forms relevant
here: optional whitespace, optional sign, either the literal Infinity or a
decimal mantissa with optional fraction and exponent, parsed as the longest
valid prefix; no valid prefix gives NaN. -/
def jsParseFloat (s : String) : JsFloat :=
  let cs := s.toList.dropWhile isJsSpace
  let (neg, cs1) :=
    match cs with
    | '-' :: r => (true, r)
    | '+' :: r => (false, r)
    | _ => (false, cs)
  if "Infinity".toList.isPrefixOf cs1 then
    if neg then JsFloat.negInf else JsFloat.posInf
  else
    let (ds, r1) := spanDigits cs1
    let (fs, r2) :=
      match r1 with
      | '.' :: t => spanDigits t
      | _ => ([], r1)
    if ds.isEmpty && fs.isEmpty then JsFloat.nan
    else
      let mant : Int := (digitsToNat (ds ++ fs) : Int)
      let expo : Int :=
        match r2 with
        | 'e' :: t =>
          let (esgn, t1) :=
            match t with
            | '-' :: u => (true, u)
            | '+' :: u => (false, u)
            | _ => (false, t)
          let (eds, _) := spanDigits t1
          if eds.isEmpty then 0
          else if esgn then -(digitsToNat eds : Int) else (digitsToNat eds : Int)
        | 'E' :: t =>
          let (esgn, t1) :=
            match t with
            | '-' :: u => (true, u)
            | '+' :: u => (false, u)
            | _ => (false, t)
          let (eds, _) := spanDigits t1
          if eds.isEmpty then 0
          else if esgn then -(digitsToNat eds : Int) else (digitsToNat eds : Int)
        | _ => 0
      let signedMant : Int := if neg then -mant else mant
      JsFloat.dec signedMant (expo - (fs.length : Int))

/-- Models the JavaScript comparison (x < 2.0): false on NaN; a finite
decimal m times ten to the s is below two when, after clearing the scale,
the integer comparison holds. -/
def jsLtTwo : JsFloat → Bool
  | JsFloat.dec m s =>
    if 0 ≤ s then decide (m * (pow10 s.toNat : Int) < 2)
    else decide (m < 2 * (pow10 (-s).toNat : Int))
  | JsFloat.negInf => true
  | _ => false

/-- Models the JavaScript comparison (x >= 2.0): false on NaN. -/
def jsGeTwo : JsFloat → Bool
  | JsFloat.dec m s =>
    if 0 ≤ s then decide (2 ≤ m * (pow10 s.toNat : Int))
    else decide (2 * (pow10 (-s).toNat : Int) ≤ m)
  | JsFloat.posInf => true
  | _ => false

/-- Field asset of a glTF document as the service reads it: only the
version string matters. A version value that is absent or empty is falsy
in the source truthiness tests. -/
structure GltfAsset where
  version : Option String
deriving DecidableEq, Repr

/-- One entry of the buffers or images array: only the uri is read. -/
structure GltfRef where
  uri : Option String
deriving DecidableEq, Repr

/-- The glTF JSON document restricted to the fields the validation service
reads. A none field models a property that is absent (or null/undefined,
which the source treats identically through JavaScript truthiness). -/
structure GltfDoc where
  asset : Option GltfAsset := none
  buffers : Option (List GltfRef) := none
  images : Option (List GltfRef) := none
  scenes : Option (List Unit) := none
  meshes : Option (List Unit) := none
  materials : Option (List Unit) := none
  animations : Option (List Unit) := none
  extensionsRequired : Option (List String) := none
deriving DecidableEq, Repr

/-- One member of a ZIP archive as JSZip exposes it: its key in the files
object, its directory flag, and the text the entry decodes to. -/
structure ZipEntry where
  name : String
  dir : Bool
  text : String
deriving DecidableEq, Repr

/-- The files object of a loaded JSZip archive, in key order. -/
abbrev ZipArchive := List ZipEntry

/-- The JavaScript builtins the service calls, supplied as functions: an
Except.error carries the message of the exception the builtin would throw
at the corresponding try/catch site of the source. -/
structure JsEnv where
  parseGltfText : String → Except String GltfDoc
  parseGltfBytes : List Nat → Except String GltfDoc
  loadZip : List Nat → Except String ZipArchive
  decodeText : List Nat → String

/-- The input file: declared name and raw bytes. -/
structure JsFile where
  name : String
  bytes : List Nat
deriving DecidableEq, Repr

/-- Size of the file in bytes, as file.size reports it. -/
def JsFile.size (f : JsFile) : Nat := f.bytes.length

/-- Result shape of validateFileIntegrity, validateGLB and validateGLTF. -/
structure VRes where
  valid : Bool
  message : String
deriving DecidableEq, Repr

/-- Result shape of validateFormat and validateZIP, with the optional
formatMessage carried on success by the ZIP branch. -/
structure FRes where
  valid : Bool
  message : String
  formatMessage : Option String := none
deriving DecidableEq, Repr

/-- Result shape of the compatibility checks. -/
structure CRes where
  valid : Bool
  message : String
  warnings : List String
deriving DecidableEq, Repr

/-- One element of the stage array: name, status string, optional message,
exactly the ValidationStage record of the source. -/
structure VStage where
  stage : String
  status : StatusStr
  message : Option String := none
deriving DecidableEq, Repr

/-- Return value of the embedded validateModel: status and issues as the
source returns them, plus the final stage array and the list of snapshots
the onStageUpdate callback receives, in call order. -/
structure Verdict where
  status : StatusStr
  issues : List String
  stages : List VStage
  trace : List (List VStage)
deriving DecidableEq, Repr

/-- One iteration of the normalization loop of resolveZipPath: a ".."
part pops the last retained segment (a pop on the empty list keeps it
empty), an empty part is dropped, any other part is pushed. -/
def normStep (normalized : List String) (part : String) : List String :=
  if part = ".." then normalized.dropLast
  else if part ≠ "" then normalized ++ [part]
  else normalized

/-- Segment list produced by resolveZipPath before the final join: the
leading "./" strip, the baseDir concatenation, the split on "/", the "."
filter and the normalization fold follow the source line by line. -/
def resolveZipSegs (baseDir relativePath : String) : List String :=
  let path :=
    if strStartsWith relativePath "./" then relativePath.drop 2 else relativePath
  let fullPath := baseDir ++ path
  let parts := (splitSlash fullPath).filter (fun p => p ≠ ".")
  parts.foldl normStep []

/-- The resolveZipPath helper of the source. -/
def resolveZipPath (baseDir relativePath : String) : String :=
  String.intercalate "/" (resolveZipSegs baseDir relativePath)

/-- Directory of a matched .gltf entry name: everything up to and
including the last slash when the name has one, else the empty string. -/
def dirName (n : String) : String :=
  match lastIdxOf '/' n with
  | some i => n.take (i + 1)
  | none => ""

/-- Lookup zipContent.files[path]: any entry of the archive with that
exact key, directory entries included. -/
def zipHasPath (archive : ZipArchive) (path : String) : Bool :=
  archive.any (fun en => en.name = path)

/-- A uri the resource loops act on: present, nonempty (JavaScript
truthiness) and not a data: URI. -/
def externalUri : Option String → Option String
  | some u => if u ≠ "" && !strStartsWith u "data:" then some u else none
  | none => none

/-- The missing-resource collection loops of validateZIP: buffers then
images, each pushing its label when the resolved path has no archive
entry. -/
def zipMissingResources (archive : ZipArchive) (gltfDir : String)
    (g : GltfDoc) : List String :=
  let bufMissing :=
    match g.buffers with
    | none => []
    | some bs =>
      bs.enum.filterMap (fun p =>
        match externalUri p.2.uri with
        | some u =>
          if zipHasPath archive (resolveZipPath gltfDir u) then none
          else some ("Buffer " ++ toString p.1 ++ ": " ++ u)
        | none => none)
  let imgMissing :=
    match g.images with
    | none => []
    | some is =>
      is.enum.filterMap (fun p =>
        match externalUri p.2.uri with
        | some u =>
          if zipHasPath archive (resolveZipPath gltfDir u) then none
          else some ("Image " ++ toString p.1 ++ ": " ++ u)
        | none => none)
  bufMissing ++ imgMissing

/-- The inline asset/version checks of validateGLTF (after JSON.parse):
some failure message, or none when the document passes them. -/
def gltfAssetVersionStd (g : GltfDoc) : Option String :=
  match g.asset with
  | none => some "Missing required \x22asset\x22 property"
  | some a =>
    match a.version with
    | none => some "Missing GLTF version"
    | some v =>
      if v = "" then some "Missing GLTF version"
      else if jsLtTwo (jsParseFloat v) then
        some ("GLTF version " ++ v ++ " not supported. Use 2.0+")
      else none

/-- The inline asset/version checks of validateZIP applied to the glTF
document parsed from the matched archive entry: some failure message, or
none when the document passes them. -/
def gltfAssetVersionZip (g : GltfDoc) : Option String :=
  match g.asset with
  | none => some "GLTF file missing required \x22asset\x22 property"
  | some a =>
    match a.version with
    | none => some "GLTF file missing version"
    | some v =>
      if v = "" then some "GLTF file missing version"
      else if jsLtTwo (jsParseFloat v) then
        some ("GLTF version " ++ v ++ " not supported. Use 2.0+")
      else none

/-- Stage-1 check validateFileIntegrity: empty and oversize rejection; the
10 MiB advisory of the source only writes to the console and is not part
of the result. -/
def validateFileIntegrity (f : JsFile) : VRes :=
  if f.size = 0 then { valid := false, message := "File is empty" }
  else if f.size > 100 * 1024 * 1024 then
    { valid := false,
      message := "File too large (" ++ mbStr f.size ++ "MB). Maximum 100MB." }
  else { valid := true, message := "File integrity verified" }

/-- Format check validateGLB: the 12-byte header read through a DataView.
The e.target.result null test of the source cannot fire for a loaded
ArrayBuffer and the FileReader onerror path is an I/O failure outside this
model; both resolve a failure message rather than throwing. -/
def validateGLB (f : JsFile) : VRes :=
  let len := f.bytes.length
  if len < 12 then { valid := false, message := "File too small to be valid GLB" }
  else if readU32 f.bytes 0 ≠ 0x46546C67 then
    { valid := false, message := "Invalid GLB file: incorrect magic number" }
  else if readU32 f.bytes 4 ≠ 2 then
    { valid := false,
      message := "Unsupported GLB version: " ++ toString (readU32 f.bytes 4) ++
        ". Only version 2 supported." }
  else if readU32 f.bytes 8 ≠ len then
    { valid := false, message := "GLB file length mismatch" }
  else { valid := true, message := "Valid GLB format" }

/-- Format check validateGLTF: read the file as text (an empty string is
falsy and hits the failed-read branch of the source), JSON.parse (a parse
exception is a SyntaxError, caught as the invalid-JSON message), then the
asset/version checks. -/
def validateGLTF (env : JsEnv) (f : JsFile) : VRes :=
  let text := env.decodeText f.bytes
  if text = "" then { valid := false, message := "Failed to read file" }
  else
    match env.parseGltfText text with
    | Except.error _ => { valid := false, message := "Invalid JSON format" }
    | Except.ok g =>
      match gltfAssetVersionStd g with
      | some m => { valid := false, message := m }
      | none => { valid := true, message := "Valid GLTF format" }

/-- Continuation of validateZIP once exactly one non-directory .gltf entry
has been matched: parse its text, run the asset/version checks, then
resolve every external buffers/images uri against the archive. -/
def validateZipEntry (env : JsEnv) (archive : ZipArchive)
    (entry : ZipEntry) : FRes :=
  match env.parseGltfText entry.text with
  | Except.error _ =>
    { valid := false, message := "GLTF file in ZIP contains invalid JSON" }
  | Except.ok g =>
    match gltfAssetVersionZip g with
    | some m => { valid := false, message := m }
    | none =>
      let gltfDir := dirName entry.name
      let missing := zipMissingResources archive gltfDir g
      if missing.length > 0 then
        { valid := false,
          message := "Missing referenced resources in ZIP: " ++
            String.intercalate ", " missing }
      else
        { valid := true, message := "Valid ZIP format",
          formatMessage := some ("Valid ZIP with GLTF (" ++ entry.name ++ ")") }

/-- Predicate selecting the .gltf members of the archive, as the filter of
the source: lowercase name ends in .gltf and the entry is not a
directory. -/
def isGltfEntry (en : ZipEntry) : Bool :=
  strEndsWith (strToLower en.name) ".gltf" && !en.dir

/-- Format check validateZIP: load the archive (the catch branch matches a
Corrupted zip message specially), count the .gltf members, then hand the
single match to the entry checks. -/
def validateZIP (env : JsEnv) (f : JsFile) : FRes :=
  match env.loadZip f.bytes with
  | Except.error e =>
    if strContainsSub e "Corrupted zip" then
      { valid := false, message := "Corrupted or invalid ZIP file" }
    else { valid := false, message := "ZIP validation failed: " ++ e }
  | Except.ok archive =>
    let gltfEntries := archive.filter isGltfEntry
    match gltfEntries with
    | [] => { valid := false, message := "No GLTF file found in ZIP archive" }
    | [entry] => validateZipEntry env archive entry
    | es =>
      { valid := false,
        message := "Multiple GLTF files found in ZIP (" ++ toString es.length ++
          "). ZIP should contain only one main GLTF file." }

/-- Dispatch validateFormat: the extension reaching it from validateModel
is always one of the three supported ones; the source keeps a fallback
branch. Its try/catch cannot fire because the dispatched checks resolve
instead of throwing. -/
def validateFormat (env : JsEnv) (f : JsFile) (extension : String) : FRes :=
  if extension = ".glb" then
    let r := validateGLB f
    { valid := r.valid, message := r.message }
  else if extension = ".gltf" then
    let r := validateGLTF env f
    { valid := r.valid, message := r.message }
  else if extension = ".zip" then validateZIP env f
  else { valid := false, message := "Unsupported format" }

/-- Shared advisory: scenes absent or empty. -/
def scenesMissing (g : GltfDoc) : Bool :=
  match g.scenes with
  | none => true
  | some l => l.isEmpty

/-- Shared hard check: meshes absent or empty. -/
def meshesMissing (g : GltfDoc) : Bool :=
  match g.meshes with
  | none => true
  | some l => l.isEmpty

/-- Shared advisory: animations present and nonempty. -/
def animationsPresent (g : GltfDoc) : Bool :=
  match g.animations with
  | none => false
  | some l => !l.isEmpty

/-- Warning text of the scenes advisory. -/
def sceneWarnMsg : String :=
  "No scenes defined. Some AR viewers may not display the model correctly."

/-- Warning text of the materials advisory. -/
def materialWarnMsg : String :=
  "No materials defined. Model may appear without textures in AR viewers."

/-- Warning text of the animations advisory. -/
def animationWarnMsg : String :=
  "Model contains animations. Ensure AR viewer supports animated models."

/-- Compatibility check checkGLBStructure: the chunk inspection only runs
when at least 8 bytes follow the 12-byte header; a wrong first chunk type
is the missing-JSON-chunk hard failure; a Uint8Array view past the end of
the buffer raises a RangeError that the inner catch turns into the
parse-failure message, as does a JSON.parse exception. When fewer than 8
bytes follow the header the whole inspection is skipped and the check
resolves valid. -/
def checkGLBStructure (env : JsEnv) (bytes : List Nat) : CRes :=
  let len := bytes.length
  if 12 + 8 ≤ len then
    let chunkLength := readU32 bytes 12
    let chunkType := readU32 bytes 16
    if chunkType ≠ 0x4E4F534A then
      { valid := false, message := "Invalid GLB structure: missing JSON chunk",
        warnings := [] }
    else if 20 + chunkLength > len then
      { valid := false, message := "Failed to parse GLB JSON chunk",
        warnings := [] }
    else
      match env.parseGltfBytes ((bytes.drop 20).take chunkLength) with
      | Except.error _ =>
        { valid := false, message := "Failed to parse GLB JSON chunk",
          warnings := [] }
      | Except.ok g =>
        let w1 := if scenesMissing g then [sceneWarnMsg] else []
        if meshesMissing g then
          { valid := false, message := "No meshes found in model", warnings := w1 }
        else
          let w2 := w1 ++ (if g.materials = none then [materialWarnMsg] else [])
          let w3 := w2 ++ (if animationsPresent g then [animationWarnMsg] else [])
          { valid := true, message := "GLB structure valid", warnings := w3 }
  else { valid := true, message := "GLB structure valid", warnings := [] }

/-- External-reference advisories of checkGLTFStructure over one array. -/
def externalRefWarnings (kind : String) (what : String)
    (refs : Option (List GltfRef)) : List String :=
  match refs with
  | none => []
  | some rs =>
    rs.enum.filterMap (fun p =>
      match externalUri p.2.uri with
      | some _ =>
        some ("External " ++ kind ++ " " ++ toString p.1 ++ " referenced. Ensure all " ++
          what ++ " are uploaded together.")
      | none => none)

/-- Compatibility check checkGLTFStructure: text read, JSON.parse (a parse
exception message is interpolated into the structure-check-failed text),
then the shared advisories, external-reference advisories and the
hard meshes check. -/
def checkGLTFStructure (env : JsEnv) (f : JsFile) : CRes :=
  let text := env.decodeText f.bytes
  if text = "" then { valid := false, message := "Failed to read file", warnings := [] }
  else
    match env.parseGltfText text with
    | Except.error e =>
      { valid := false, message := "GLTF structure check failed: " ++ e,
        warnings := [] }
    | Except.ok g =>
      let w1 := if scenesMissing g then [sceneWarnMsg] else []
      if meshesMissing g then
        { valid := false, message := "No meshes found in model", warnings := w1 }
      else
        let w2 := w1 ++ (if g.materials = none then [materialWarnMsg] else [])
        let w3 := w2 ++ externalRefWarnings "buffer" "resources" g.buffers
        let w4 := w3 ++ externalRefWarnings "image" "textures" g.images
        let w5 := w4 ++ (if animationsPresent g then [animationWarnMsg] else [])
        { valid := true, message := "GLTF structure valid", warnings := w5 }

/-- Missing-resource advisories of checkZIPStructure over one reference
array: unlike the format stage these are warnings, and they cite the raw
uri with the given label. -/
def zipRefWarnings (label : String) (archive : ZipArchive) (gltfDir : String)
    (refs : Option (List GltfRef)) : List String :=
  match refs with
  | none => []
  | some rs =>
    rs.filterMap (fun r =>
      match externalUri r.uri with
      | some u =>
        if zipHasPath archive (resolveZipPath gltfDir u) then none
        else some (label ++ u)
      | none => none)

/-- Compatibility check checkZIPStructure: reload the archive, take the
first .gltf match (this check does not reject multiple matches), parse it
(a parse exception propagates to the outer catch, whose message
interpolates the exception text), then advisories: shared ones, per-uri
missing-resource warnings, required extensions and the over-50 file
count. -/
def checkZIPStructure (env : JsEnv) (bytes : List Nat) : CRes :=
  match env.loadZip bytes with
  | Except.error e =>
    { valid := false, message := "ZIP structure check failed: " ++ e,
      warnings := [] }
  | Except.ok archive =>
    match archive.filter isGltfEntry with
    | [] => { valid := false, message := "No GLTF file found in ZIP", warnings := [] }
    | entry :: _ =>
      match env.parseGltfText entry.text with
      | Except.error e =>
        { valid := false, message := "ZIP structure check failed: " ++ e,
          warnings := [] }
      | Except.ok g =>
        let w1 := if scenesMissing g then [sceneWarnMsg] else []
        if meshesMissing g then
          { valid := false, message := "No meshes found in model", warnings := w1 }
        else
          let gltfDir := dirName entry.name
          let w2 := w1 ++ (if g.materials = none then [materialWarnMsg] else [])
          let w3 := w2 ++
            zipRefWarnings "Referenced buffer not found in ZIP: " archive gltfDir g.buffers
          let w4 := w3 ++
            zipRefWarnings "Referenced texture not found in ZIP: " archive gltfDir g.images
          let w5 := w4 ++ (if animationsPresent g then [animationWarnMsg] else [])
          let w6 := w5 ++
            (match g.extensionsRequired with
             | none => []
             | some [] => []
             | some exts =>
               ["Model requires extensions: " ++ String.intercalate ", " exts ++
                 ". Ensure AR viewer supports these."])
          let fileCount := (archive.filter (fun en => !en.dir)).length
          let w7 := w6 ++
            (if fileCount > 50 then
              ["ZIP contains " ++ toString fileCount ++
                " files. Large file counts may slow loading."]
             else [])
          { valid := true, message := "ZIP structure valid for AR", warnings := w7 }

/-- File-size advisories of validateARCompatibility: over 20 MiB, else
over 5 MiB. -/
def arSizeWarnings (size : Nat) : List String :=
  if size > 20 * 1024 * 1024 then
    ["Large file size (" ++ mbStr size ++
      "MB) may cause performance issues on mobile AR devices"]
  else if size > 5 * 1024 * 1024 then
    ["File size (" ++ mbStr size ++ "MB) is above optimal 5MB for best AR performance"]
  else []

/-- Tail of validateARCompatibility once the per-container check reported
valid: append the size advisories and pick the headline message from
whether any warning exists. -/
def finishCompat (size : Nat) (warnings : List String) : CRes :=
  let ws := warnings ++ arSizeWarnings size
  { valid := true,
    message :=
      if ws.length > 0 then "Model is compatible with warnings"
      else "Model is fully AR-compatible",
    warnings := ws }

/-- Stage-3 check validateARCompatibility: dispatch on the extension (the
source tests the three extensions in sequence; exactly one can match),
return the failed per-container result with its warnings, else finish with
the size advisories. Its outer try/catch cannot fire because the
dispatched checks resolve instead of throwing. -/
def validateARCompatibility (env : JsEnv) (f : JsFile)
    (extension : String) : CRes :=
  if extension = ".glb" then
    let r := checkGLBStructure env f.bytes
    if r.valid then finishCompat f.size r.warnings
    else { valid := false, message := r.message, warnings := r.warnings }
  else if extension = ".gltf" then
    let r := checkGLTFStructure env f
    if r.valid then finishCompat f.size r.warnings
    else { valid := false, message := r.message, warnings := r.warnings }
  else if extension = ".zip" then
    let r := checkZIPStructure env f.bytes
    if r.valid then finishCompat f.size r.warnings
    else { valid := false, message := r.message, warnings := r.warnings }
  else finishCompat f.size []

/-- Extension derivation of validateModel:
file.name.toLowerCase().substring(file.name.lastIndexOf(".")). A name
without a dot gives lastIndexOf -1, and substring clamps it to 0, so the
whole lowercased name is the "extension" then, exactly as in JavaScript. -/
def extOf (name : String) : String :=
  match lastIdxOf '.' name with
  | some i => (strToLower name).drop i
  | none => strToLower name

/-- The initial stage array: three stages, all pending. -/
def initialStages : List VStage :=
  [{ stage := "file-integrity", status := "pending" },
   { stage := "format-validation", status := "pending" },
   { stage := "ar-compatibility", status := "pending" }]

/-- The verdict expression of the source, applied to a settled stage
array: allPassed, else hasCriticalFailure, else warning. -/
def finalStatusOf (stages : List VStage) : StatusStr :=
  if stages.all (fun s => s.status == "passed") then "ready"
  else if stages.any (fun s => s.status == "failed") then "error"
  else "warning"

/-- The orchestrator validateModel. Each snapshot appended to the trace is
one onStageUpdate call of the source, with the stage array as the callback
observes it at that moment; the source mutates one three-element array in
place, modelled here by rebuilding the list at each transition. Early
returns hardcode the error status exactly as the source does. -/
def validateModel (env : JsEnv) (f : JsFile) : Verdict :=
  let sA : List VStage :=
    [{ stage := "file-integrity", status := "processing" },
     { stage := "format-validation", status := "pending" },
     { stage := "ar-compatibility", status := "pending" }]
  let integrity := validateFileIntegrity f
  if integrity.valid then
    let sC : List VStage :=
      [{ stage := "file-integrity", status := "passed",
         message := some "File integrity verified" },
       { stage := "format-validation", status := "processing" },
       { stage := "ar-compatibility", status := "pending" }]
    let extension := extOf f.name
    if extension ≠ ".glb" ∧ extension ≠ ".gltf" ∧ extension ≠ ".zip" then
      let sD : List VStage :=
        [{ stage := "file-integrity", status := "passed",
           message := some "File integrity verified" },
         { stage := "format-validation", status := "failed",
           message := some "Unsupported file format. Use GLB, GLTF, or ZIP." },
         { stage := "ar-compatibility", status := "pending" }]
      { status := "error",
        issues := ["File format not supported. AR viewers require GLB, GLTF, or ZIP with GLTF."],
        stages := sD, trace := [sA, sC, sD] }
    else
      let formatResult := validateFormat env f extension
      if formatResult.valid then
        let stage2Msg :=
          match formatResult.formatMessage with
          | some m =>
            if m = "" then "Valid " ++ strToUpper extension ++ " format detected" else m
          | none => "Valid " ++ strToUpper extension ++ " format detected"
        let sE : List VStage :=
          [{ stage := "file-integrity", status := "passed",
             message := some "File integrity verified" },
           { stage := "format-validation", status := "passed",
             message := some stage2Msg },
           { stage := "ar-compatibility", status := "processing" }]
        let compatibility := validateARCompatibility env f extension
        let sF : List VStage :=
          [{ stage := "file-integrity", status := "passed",
             message := some "File integrity verified" },
           { stage := "format-validation", status := "passed",
             message := some stage2Msg },
           { stage := "ar-compatibility",
             status := if compatibility.valid then "passed" else "failed",
             message := some compatibility.message }]
        let issues :=
          if compatibility.valid then compatibility.warnings
          else compatibility.warnings ++ [compatibility.message]
        { status := finalStatusOf sF, issues := issues, stages := sF,
          trace := [sA, sC, sE, sF] }
      else
        let sD : List VStage :=
          [{ stage := "file-integrity", status := "passed",
             message := some "File integrity verified" },
           { stage := "format-validation", status := "failed",
             message := some formatResult.message },
           { stage := "ar-compatibility", status := "pending" }]
        { status := "error", issues := [formatResult.message], stages := sD,
          trace := [sA, sC, sD] }
  else
    let sB : List VStage :=
      [{ stage := "file-integrity", status := "failed",
         message := some integrity.message },
       { stage := "format-validation", status := "pending" },
       { stage := "ar-compatibility", status := "pending" }]
    { status := "error", issues := [integrity.message], stages := sB,
      trace := [sA, sB] }

/-- Environment whose builtins all fail: every parse throws and every
archive load throws; text decoding yields the empty string. -/
def envTrivial : JsEnv :=
  { parseGltfText := fun _ => Except.error "parse error",
    parseGltfBytes := fun _ => Except.error "parse error",
    loadZip := fun _ => Except.error "load error",
    decodeText := fun _ => "" }

/-- A glTF document with version 2.0, one mesh and one scene but no
materials key: structurally valid with one advisory. -/
def docNoMaterials : GltfDoc :=
  { asset := some { version := some "2.0" }, meshes := some [()],
    scenes := some [()] }

/-- Environment in which the file text decodes to "G" and parses to the
materials-free document. -/
def envGltfOk : JsEnv :=
  { parseGltfText := fun s =>
      if s = "G" then Except.ok docNoMaterials else Except.error "parse error",
    parseGltfBytes := fun _ => Except.error "parse error",
    loadZip := fun _ => Except.error "load error",
    decodeText := fun _ => "G" }

/-- One-byte file with a .gltf name. -/
def fileGltf : JsFile := { name := "model.gltf", bytes := [65] }

/-- A glTF document whose asset.version is the unparseable string x. -/
def docVersionX : GltfDoc :=
  { asset := some { version := some "x" }, meshes := some [()],
    scenes := some [()], materials := some [()] }

/-- Environment parsing the file text to the version-x document. -/
def envVersionX : JsEnv :=
  { parseGltfText := fun s =>
      if s = "G" then Except.ok docVersionX else Except.error "parse error",
    parseGltfBytes := fun _ => Except.error "parse error",
    loadZip := fun _ => Except.error "load error",
    decodeText := fun _ => "G" }

/-- A 12-byte GLB: correct magic, version 2, declared length 12, and no
chunk after the header. -/
def glbHeaderOnly : List Nat :=
  [0x67, 0x6C, 0x54, 0x46, 2, 0, 0, 0, 12, 0, 0, 0]

/-- Environment whose only archive is empty. -/
def envZipEmpty : JsEnv :=
  { parseGltfText := fun _ => Except.error "parse error",
    parseGltfBytes := fun _ => Except.error "parse error",
    loadZip := fun b => if b = [1] then Except.ok [] else Except.error "load error",
    decodeText := fun _ => "" }

/-- One-byte file with a .zip name. -/
def fileZip : JsFile := { name := "model.zip", bytes := [1] }

/-- A glTF document referencing one external image that the archive below
does not contain. -/
def docMissingImage : GltfDoc :=
  { asset := some { version := some "2.0" },
    images := some [{ uri := some "textures/logo.png" }],
    meshes := some [()], scenes := some [()] }

/-- Archive with a single .gltf entry and no other members. -/
def archiveOneGltf : ZipArchive :=
  [{ name := "scene.gltf", dir := false, text := "T" }]

/-- Environment loading the one-entry archive and parsing its entry text
to the document with the unresolved image reference. -/
def envZipMissing : JsEnv :=
  { parseGltfText := fun s =>
      if s = "T" then Except.ok docMissingImage else Except.error "parse error",
    parseGltfBytes := fun _ => Except.error "parse error",
    loadZip := fun b => if b = [1] then Except.ok archiveOneGltf else Except.error "load error",
    decodeText := fun _ => "" }

/-- A glTF document with no asset object at all. -/
def docNoAsset : GltfDoc := {}

/-- C1: for every input file (and every behaviour of the JavaScript
builtins) the verdict validateModel returns equals the source's final
expression applied to the settled stage collection: ready when all three
stages are passed, else error when some stage is failed, else warning;
in particular a run whose three stages all passed returns ready no matter
what the issue list contains. -/
theorem validateModel_verdict_formula (env : JsEnv) (f : JsFile) :
    (validateModel env f).status = finalStatusOf (validateModel env f).stages ∧
    ((validateModel env f).stages.all (fun s => s.status == "passed") = true →
      (validateModel env f).status = "ready") := by
  cases hI : (validateFileIntegrity f).valid with
  | false =>
    simp only [validateModel, hI, Bool.false_eq_true, if_false]
    refine ⟨?_, fun h => ?_⟩
    · trivial
    · exact Bool.noConfusion h
  | true =>
    by_cases hE : extOf f.name ≠ ".glb" ∧ extOf f.name ≠ ".gltf" ∧ extOf f.name ≠ ".zip"
    · simp only [validateModel, hI, if_true, if_pos hE]
      refine ⟨?_, fun h => ?_⟩
      · trivial
      · exact Bool.noConfusion h
    · cases hF : (validateFormat env f (extOf f.name)).valid with
      | false =>
        simp only [validateModel, hI, if_true, if_neg hE, hF, Bool.false_eq_true, if_false]
        refine ⟨?_, fun h => ?_⟩
        · trivial
        · exact Bool.noConfusion h
      | true =>
        cases hC : (validateARCompatibility env f (extOf f.name)).valid with
        | false =>
          simp only [validateModel, hI, if_true, if_neg hE, hF, hC, Bool.false_eq_true,
            if_false, if_true]
          refine ⟨?_, fun h => ?_⟩
          · trivial
          · exact Bool.noConfusion h
        | true =>
          simp only [validateModel, hI, if_true, if_neg hE, hF, hC, if_true]
          refine ⟨?_, fun h => ?_⟩
          · trivial
          · trivial

/-- Application of the verdict formula at a run whose three stages all
pass while the issue list is nonempty: the status is still ready. -/
theorem validateModel_verdict_formula_app :
    (validateModel envGltfOk fileGltf).stages.all (fun s => s.status == "passed") = true ∧
    (validateModel envGltfOk fileGltf).status = "ready" ∧
    (validateModel envGltfOk fileGltf).issues ≠ [] :=
  ⟨by decide, (validateModel_verdict_formula envGltfOk fileGltf).2 (by decide), by decide⟩

/-- C2: for every input file and every behaviour of the builtins the
orchestrator returns one of the three verdict strings; the embedding is a
total function, so this also records that every parse or load failure is
converted into a result rather than escaping. -/
theorem validateModel_status_total (env : JsEnv) (f : JsFile) :
    (validateModel env f).status = "ready" ∨ (validateModel env f).status = "warning" ∨
      (validateModel env f).status = "error" := by
  cases hI : (validateFileIntegrity f).valid with
  | false =>
    simp only [validateModel, hI, Bool.false_eq_true, if_false]
    trivial
  | true =>
    by_cases hE : extOf f.name ≠ ".glb" ∧ extOf f.name ≠ ".gltf" ∧ extOf f.name ≠ ".zip"
    · simp only [validateModel, hI, if_true, if_pos hE]
      trivial
    · cases hF : (validateFormat env f (extOf f.name)).valid with
      | false =>
        simp only [validateModel, hI, if_true, if_neg hE, hF, Bool.false_eq_true, if_false]
        trivial
      | true =>
        cases hC : (validateARCompatibility env f (extOf f.name)).valid with
        | false =>
          simp only [validateModel, hI, if_true, if_neg hE, hF, hC, Bool.false_eq_true,
            if_false, if_true]
          exact Or.inr (Or.inr rfl)
        | true =>
          simp only [validateModel, hI, if_true, if_neg hE, hF, hC, if_true]
          exact Or.inl rfl

/-- C3: the GLB format check accepts a buffer exactly when it is at least
12 bytes long, the little-endian uint32 at offset 0 is 0x46546C67, the one
at offset 4 is 2 and the one at offset 8 equals the byte length; each
violated condition, tested in that order, yields its message, the magic
failure carrying the full text "Invalid GLB file: incorrect magic number"
whose quoted fragment the claim cites. -/
theorem validateGLB_header_characterization (f : JsFile) :
    ((validateGLB f).valid = true ↔
      (12 ≤ f.bytes.length ∧ readU32 f.bytes 0 = 0x46546C67 ∧
        readU32 f.bytes 4 = 2 ∧ readU32 f.bytes 8 = f.bytes.length)) ∧
    (f.bytes.length < 12 →
      (validateGLB f).message = "File too small to be valid GLB") ∧
    (12 ≤ f.bytes.length → readU32 f.bytes 0 ≠ 0x46546C67 →
      (validateGLB f).message = "Invalid GLB file: incorrect magic number") ∧
    (12 ≤ f.bytes.length → readU32 f.bytes 0 = 0x46546C67 → readU32 f.bytes 4 ≠ 2 →
      (validateGLB f).message =
        "Unsupported GLB version: " ++ toString (readU32 f.bytes 4) ++
          ". Only version 2 supported.") ∧
    (12 ≤ f.bytes.length → readU32 f.bytes 0 = 0x46546C67 → readU32 f.bytes 4 = 2 →
      readU32 f.bytes 8 ≠ f.bytes.length →
      (validateGLB f).message = "GLB file length mismatch") ∧
    ((validateGLB f).valid = true → (validateGLB f).message = "Valid GLB format") := by
  by_cases h1 : f.bytes.length < 12
  · have e : validateGLB f = { valid := false, message := "File too small to be valid GLB" } := by
      simp only [validateGLB, if_pos h1]
    rw [e]
    exact ⟨⟨fun hv => Bool.noConfusion hv, fun hc => absurd hc.1 (by omega)⟩,
      fun _ => rfl,
      fun h12 _ => absurd h1 (by omega),
      fun h12 _ _ => absurd h1 (by omega),
      fun h12 _ _ _ => absurd h1 (by omega),
      fun hv => Bool.noConfusion hv⟩
  · by_cases h2 : readU32 f.bytes 0 = 0x46546C67
    · by_cases h3 : readU32 f.bytes 4 = 2
      · by_cases h4 : readU32 f.bytes 8 = f.bytes.length
        · have e : validateGLB f = { valid := true, message := "Valid GLB format" } := by
            simp only [validateGLB, if_neg h1, if_neg (not_not_intro h2),
              if_neg (not_not_intro h3), if_neg (not_not_intro h4)]
          rw [e]
          exact ⟨⟨fun _ => ⟨by omega, h2, h3, h4⟩, fun _ => rfl⟩,
            fun hlt => absurd hlt h1,
            fun _ hm => absurd h2 hm,
            fun _ _ hm => absurd h3 hm,
            fun _ _ _ hm => absurd h4 hm,
            fun _ => rfl⟩
        · have e : validateGLB f = { valid := false, message := "GLB file length mismatch" } := by
            simp only [validateGLB, if_neg h1, if_neg (not_not_intro h2),
              if_neg (not_not_intro h3), if_pos h4]
          rw [e]
          exact ⟨⟨fun hv => Bool.noConfusion hv, fun hc => absurd hc.2.2.2 h4⟩,
            fun hlt => absurd hlt h1,
            fun _ hm => absurd h2 hm,
            fun _ _ hm => absurd h3 hm,
            fun _ _ _ _ => rfl,
            fun hv => Bool.noConfusion hv⟩
      · have e : validateGLB f =
            { valid := false,
              message := "Unsupported GLB version: " ++ toString (readU32 f.bytes 4) ++
                ". Only version 2 supported." } := by
          simp only [validateGLB, if_neg h1, if_neg (not_not_intro h2), if_pos h3]
        rw [e]
        exact ⟨⟨fun hv => Bool.noConfusion hv, fun hc => absurd hc.2.2.1 h3⟩,
          fun hlt => absurd hlt h1,
          fun _ hm => absurd h2 hm,
          fun _ _ _ => rfl,
          fun _ _ hv _ => absurd hv h3,
          fun hv => Bool.noConfusion hv⟩
    · have e : validateGLB f =
          { valid := false, message := "Invalid GLB file: incorrect magic number" } := by
        simp only [validateGLB, if_neg h1, if_pos h2]
      rw [e]
      exact ⟨⟨fun hv => Bool.noConfusion hv, fun hc => absurd hc.2.1 h2⟩,
        fun hlt => absurd hlt h1,
        fun _ _ => rfl,
        fun _ hm => absurd hm h2,
        fun _ hm _ _ => absurd hm h2,
        fun hv => Bool.noConfusion hv⟩

/-- A 3-byte buffer is rejected as too small and a 12-byte buffer with a
zero magic is rejected for its magic number, by the characterization. -/
theorem validateGLB_header_characterization_app :
    (validateGLB { name := "model.glb", bytes := [1, 2, 3] }).message =
      "File too small to be valid GLB" ∧
    (validateGLB
        { name := "model.glb", bytes := [0, 0, 0, 0, 2, 0, 0, 0, 12, 0, 0, 0] }).message =
      "Invalid GLB file: incorrect magic number" :=
  ⟨(validateGLB_header_characterization
      { name := "model.glb", bytes := [1, 2, 3] }).2.1 (by decide),
   (validateGLB_header_characterization
      { name := "model.glb", bytes := [0, 0, 0, 0, 2, 0, 0, 0, 12, 0, 0, 0] }).2.2.1
      (by decide) (by decide)⟩

/-- A glTF document with version 1.0, used to exercise the rejecting
branch of the version threshold. -/
def docVersion1 : GltfDoc :=
  { asset := some { version := some "1.0" }, meshes := some [()],
    scenes := some [()], materials := some [()] }

/-- Environment parsing the file text to the version-1.0 document. -/
def envVersion1 : JsEnv :=
  { parseGltfText := fun s =>
      if s = "G" then Except.ok docVersion1 else Except.error "parse error",
    parseGltfBytes := fun _ => Except.error "parse error",
    loadZip := fun _ => Except.error "load error",
    decodeText := fun _ => "G" }

/-- Counterexample to C4 as stated: a document whose asset.version is the
string x parses to NaN, which is not at least 2.0, yet the glTF format
check accepts it, because the source only rejects when the comparison
version < 2.0 is true and every comparison against NaN is false. -/
theorem validateGLTF_accepts_nan_version :
    (validateGLTF envVersionX fileGltf).valid = true ∧
    (validateGLTF envVersionX fileGltf).message = "Valid GLTF format" ∧
    docVersionX.asset = some { version := some "x" } ∧
    jsGeTwo (jsParseFloat "x") = false :=
  ⟨by decide, by decide, by decide, by decide⟩

/-- C4 (amended): for a parsed document with a truthy asset.version, the
glTF format check accepts exactly when parseFloat(version) < 2.0 is false
under JavaScript comparison semantics — so a version parsing to NaN is
accepted — and rejects with the not-supported message exactly when the
parsed float is an actual number below 2.0. -/
theorem validateGLTF_version_threshold (env : JsEnv) (f : JsFile) (g : GltfDoc)
    (a : GltfAsset) (v : String)
    (h1 : env.decodeText f.bytes ≠ "")
    (h2 : env.parseGltfText (env.decodeText f.bytes) = Except.ok g)
    (h3 : g.asset = some a) (h4 : a.version = some v) (h5 : v ≠ "") :
    ((validateGLTF env f).valid = true ↔ jsLtTwo (jsParseFloat v) = false) ∧
    (jsLtTwo (jsParseFloat v) = true →
      (validateGLTF env f).message =
        "GLTF version " ++ v ++ " not supported. Use 2.0+") ∧
    (jsLtTwo (jsParseFloat v) = false →
      (validateGLTF env f).message = "Valid GLTF format") := by
  cases hb : jsLtTwo (jsParseFloat v) with
  | true =>
    have e : validateGLTF env f =
        { valid := false,
          message := "GLTF version " ++ v ++ " not supported. Use 2.0+" } := by
      simp only [validateGLTF, if_neg h1, h2, gltfAssetVersionStd, h3, h4, if_neg h5,
        hb, if_true]
    rw [e]
    exact ⟨⟨fun hv => Bool.noConfusion hv,
        fun hc => Bool.noConfusion hc⟩,
      fun _ => rfl,
      fun hc => Bool.noConfusion hc⟩
  | false =>
    have e : validateGLTF env f = { valid := true, message := "Valid GLTF format" } := by
      simp only [validateGLTF, if_neg h1, h2, gltfAssetVersionStd, h3, h4, if_neg h5,
        hb, Bool.false_eq_true, if_false]
    rw [e]
    exact ⟨⟨fun _ => rfl, fun _ => rfl⟩,
      fun hc => Bool.noConfusion hc,
      fun _ => rfl⟩

/-- Version 1.0 parses below the threshold and is rejected with the
interpolated message, by the threshold theorem. -/
theorem validateGLTF_version_threshold_app :
    (validateGLTF envVersion1 fileGltf).valid = false ∧
    (validateGLTF envVersion1 fileGltf).message =
      "GLTF version 1.0 not supported. Use 2.0+" :=
  ⟨by decide,
   (validateGLTF_version_threshold envVersion1 fileGltf docVersion1
      { version := some "1.0" } "1.0" (by decide) (by rfl) (by decide)
      (by decide) (by decide)).2.1 (by decide)⟩

/-- A 20-byte GLB whose first chunk header carries chunk type 0 instead
of the JSON type. -/
def glbWrongChunk : List Nat :=
  [0x67, 0x6C, 0x54, 0x46, 2, 0, 0, 0, 20, 0, 0, 0, 0, 0, 0, 0, 0, 0, 0, 0]

/-- Counterexample to C5 as stated: the 12-byte GLB with a valid header
and no chunk at all passes the format stage, and the AR structure check
reports it valid instead of failing with the missing-JSON-chunk message,
because the chunk inspection only runs when at least 8 bytes follow the
header. -/
theorem checkGLB_valid_without_first_chunk :
    (validateGLB { name := "model.glb", bytes := glbHeaderOnly }).valid = true ∧
    glbHeaderOnly.length = 12 ∧
    checkGLBStructure envTrivial glbHeaderOnly =
      { valid := true, message := "GLB structure valid", warnings := [] } :=
  ⟨by decide, by decide, by decide⟩

/-- C5 (amended): when at least 8 bytes follow the 12-byte header and
the first chunk type differs from 0x4E4F534A the AR structure check fails
hard with the missing-JSON-chunk message; when fewer than 8 bytes follow
the header the chunk inspection is skipped entirely and the check reports
valid. -/
theorem checkGLB_json_chunk_rule (env : JsEnv) (bytes : List Nat) :
    (20 ≤ bytes.length → readU32 bytes 16 ≠ 0x4E4F534A →
      checkGLBStructure env bytes =
        { valid := false, message := "Invalid GLB structure: missing JSON chunk",
          warnings := [] }) ∧
    (bytes.length < 20 →
      checkGLBStructure env bytes =
        { valid := true, message := "GLB structure valid", warnings := [] }) := by
  by_cases h : 12 + 8 ≤ bytes.length
  · refine ⟨fun _ hm => ?_, fun hlt => absurd h (by omega)⟩
    simp only [checkGLBStructure, if_pos h, if_pos hm]
  · refine ⟨fun h20 _ => absurd h20 (by omega), fun _ => ?_⟩
    simp only [checkGLBStructure, if_neg h]

/-- Application of the chunk rule to the wrong-chunk-type buffer and to
a 3-byte buffer. -/
theorem checkGLB_json_chunk_rule_app :
    checkGLBStructure envTrivial glbWrongChunk =
      { valid := false, message := "Invalid GLB structure: missing JSON chunk",
        warnings := [] } ∧
    checkGLBStructure envTrivial [1, 2, 3] =
      { valid := true, message := "GLB structure valid", warnings := [] } :=
  ⟨(checkGLB_json_chunk_rule envTrivial glbWrongChunk).1 (by decide) (by decide),
   (checkGLB_json_chunk_rule envTrivial [1, 2, 3]).2 (by decide)⟩

/-- Counterexample to C6 as stated: an archive with no .gltf member is
rejected by the format stage with the message "No GLTF file found in ZIP
archive", not with the wording "No .gltf file found in the ZIP archive"
the claim quotes (that wording appears only in the out-of-scope upload
pipeline). -/
theorem validateZIP_zero_match_message_actual :
    (validateZIP envZipEmpty fileZip).valid = false ∧
    (validateZIP envZipEmpty fileZip).message = "No GLTF file found in ZIP archive" ∧
    (validateZIP envZipEmpty fileZip).message ≠ "No .gltf file found in the ZIP archive" :=
  ⟨by decide, by decide, by decide⟩


/-- C6 (amended): once the archive loads, zero .gltf matches fail with
"No GLTF file found in ZIP archive", two or more matches fail with the
counted multiple-files message, and exactly one match hands the entry to
the embedded glTF checks. -/
theorem validateZIP_gltf_count_rule (env : JsEnv) (f : JsFile) (archive : ZipArchive)
    (h : env.loadZip f.bytes = Except.ok archive) :
    (archive.filter isGltfEntry = [] →
      validateZIP env f =
        { valid := false, message := "No GLTF file found in ZIP archive" }) ∧
    (2 ≤ (archive.filter isGltfEntry).length →
      validateZIP env f =
        { valid := false,
          message := "Multiple GLTF files found in ZIP (" ++
            toString (archive.filter isGltfEntry).length ++
            "). ZIP should contain only one main GLTF file." }) ∧
    (∀ entry, archive.filter isGltfEntry = [entry] →
      validateZIP env f = validateZipEntry env archive entry) := by
  cases hm : archive.filter isGltfEntry with
  | nil =>
    refine ⟨fun _ => ?_, fun h2 => ?_, fun entry he => ?_⟩
    · simp only [validateZIP, h, hm]
    · simp at h2
    · exact List.noConfusion he
  | cons a t =>
    cases t with
    | nil =>
      refine ⟨fun h0 => ?_, fun h2 => ?_, fun entry he => ?_⟩
      · exact List.noConfusion h0
      · simp at h2
      · injection he with hh ht
        subst hh
        simp only [validateZIP, h, hm]
    | cons b t2 =>
      refine ⟨fun h0 => ?_, fun h2 => ?_, fun entry he => ?_⟩
      · exact List.noConfusion h0
      · simp only [validateZIP, h, hm]
      · injection he with hh ht
        exact List.noConfusion ht

/-- Archive with two .gltf members. -/
def archiveTwoGltf : ZipArchive :=
  [{ name := "a.gltf", dir := false, text := "X" },
   { name := "b.gltf", dir := false, text := "Y" }]

/-- Environment whose only archive holds the two .gltf members. -/
def envZipTwo : JsEnv :=
  { parseGltfText := fun _ => Except.error "parse error",
    parseGltfBytes := fun _ => Except.error "parse error",
    loadZip := fun b => if b = [1] then Except.ok archiveTwoGltf else Except.error "load error",
    decodeText := fun _ => "" }

/-- Application of the count rule to the empty archive, the two-entry
archive and the single-entry archive. -/
theorem validateZIP_gltf_count_rule_app :
    validateZIP envZipEmpty fileZip =
      { valid := false, message := "No GLTF file found in ZIP archive" } ∧
    validateZIP envZipTwo fileZip =
      { valid := false,
        message := "Multiple GLTF files found in ZIP (2). ZIP should contain only one main GLTF file." } ∧
    validateZIP envZipMissing fileZip =
      validateZipEntry envZipMissing archiveOneGltf
        { name := "scene.gltf", dir := false, text := "T" } :=
  ⟨(validateZIP_gltf_count_rule envZipEmpty fileZip [] (by rfl)).1 (by decide),
   (validateZIP_gltf_count_rule envZipTwo fileZip archiveTwoGltf (by rfl)).2.1 (by decide),
   (validateZIP_gltf_count_rule envZipMissing fileZip archiveOneGltf (by rfl)).2.2
     { name := "scene.gltf", dir := false, text := "T" } (by decide)⟩

/-- C7: when the archive loads with exactly one .gltf match whose document
passes the asset/version checks but references at least one external
buffers/images uri (resolved through resolveZipPath against the entry
names) with no matching archive member, the format stage fails hard with
the single combined message joining all missing resources with commas,
and a run over that file returns verdict error with that message as the
stage-2 failure and sole issue. -/
theorem validateZIP_missing_resources_hard_fail (env : JsEnv) (f : JsFile)
    (archive : ZipArchive) (entry : ZipEntry) (g : GltfDoc)
    (h1 : env.loadZip f.bytes = Except.ok archive)
    (h2 : archive.filter isGltfEntry = [entry])
    (h3 : env.parseGltfText entry.text = Except.ok g)
    (h4 : gltfAssetVersionZip g = none)
    (h5 : zipMissingResources archive (dirName entry.name) g ≠ []) :
    validateZIP env f =
      { valid := false,
        message := "Missing referenced resources in ZIP: " ++
          String.intercalate ", " (zipMissingResources archive (dirName entry.name) g) } ∧
    (extOf f.name = ".zip" → 0 < f.size → f.size ≤ 100 * 1024 * 1024 →
      (validateModel env f).status = "error" ∧
      (validateModel env f).issues =
        ["Missing referenced resources in ZIP: " ++
          String.intercalate ", " (zipMissingResources archive (dirName entry.name) g)] ∧
      (validateModel env f).stages =
        [{ stage := "file-integrity", status := "passed",
           message := some "File integrity verified" },
         { stage := "format-validation", status := "failed",
           message := some ("Missing referenced resources in ZIP: " ++
             String.intercalate ", " (zipMissingResources archive (dirName entry.name) g)) },
         { stage := "ar-compatibility", status := "pending" }]) := by
  have hp : 0 < (zipMissingResources archive (dirName entry.name) g).length :=
    List.length_pos.mpr h5
  have hz : validateZipEntry env archive entry =
      { valid := false,
        message := "Missing referenced resources in ZIP: " ++
          String.intercalate ", " (zipMissingResources archive (dirName entry.name) g) } := by
    simp only [validateZipEntry, h3, h4]
    rw [if_pos hp]
  have hA : validateZIP env f =
      { valid := false,
        message := "Missing referenced resources in ZIP: " ++
          String.intercalate ", " (zipMissingResources archive (dirName entry.name) g) } := by
    simp only [validateZIP, h1, h2]
    exact hz
  refine ⟨hA, fun hext hpos hle => ?_⟩
  have hI : (validateFileIntegrity f).valid = true := by
    simp only [validateFileIntegrity,
      if_neg (by omega : ¬(f.size = 0)),
      if_neg (by omega : ¬(f.size > 100 * 1024 * 1024))]
  have hE : ¬(extOf f.name ≠ ".glb" ∧ extOf f.name ≠ ".gltf" ∧ extOf f.name ≠ ".zip") :=
    fun hc => hc.2.2 hext
  have hFr : validateFormat env f (extOf f.name) =
      { valid := false,
        message := "Missing referenced resources in ZIP: " ++
          String.intercalate ", " (zipMissingResources archive (dirName entry.name) g) } := by
    rw [hext]
    simp only [validateFormat,
      if_neg (by decide : ¬((".zip" : String) = ".glb")),
      if_neg (by decide : ¬((".zip" : String) = ".gltf")),
      if_pos (rfl : (".zip" : String) = ".zip")]
    exact hA
  simp only [validateModel, hI, if_true, if_neg hE, hFr, Bool.false_eq_true, if_false]
  refine ⟨?_, ?_, ?_⟩ <;> trivial

/-- Full run over the one-entry archive whose glTF references
textures/logo.png while the archive lacks it: format stage fails, verdict
is error, the combined message cites the missing resource. -/
theorem validateZIP_missing_resources_run :
    (validateModel envZipMissing fileZip).status = "error" ∧
    (validateModel envZipMissing fileZip).issues =
      ["Missing referenced resources in ZIP: Image 0: textures/logo.png"] := by
  have h :=
    (validateZIP_missing_resources_hard_fail envZipMissing fileZip archiveOneGltf
      { name := "scene.gltf", dir := false, text := "T" } docMissingImage
      (by rfl) (by decide) (by rfl) (by decide) (by decide)).2
      (by decide) (by decide) (by decide)
  exact ⟨h.1, h.2.1⟩

/-- Counterexample to C8 as stated: on a document with no asset object
both checks reject, but the ZIP-embedded variant says "GLTF file missing
required asset property" while the standalone variant says "Missing
required asset property" — the failure messages are not identical. -/
theorem gltf_version_checks_message_mismatch :
    (gltfAssetVersionZip docNoAsset).isSome = true ∧
    (gltfAssetVersionStd docNoAsset).isSome = true ∧
    gltfAssetVersionZip docNoAsset ≠ gltfAssetVersionStd docNoAsset :=
  ⟨by decide, by decide, by decide⟩


/-- C8 (amended): the ZIP-embedded and standalone asset/version checks
accept and reject exactly the same documents, and their rejection message
is identical for the version-below-2.0 rejection; the two presence
rejections (missing asset, missing or empty version) reject alike but
with different wording, the embedded variant prefixing "GLTF file". -/
theorem gltf_version_checks_agreement (g : GltfDoc) :
    ((gltfAssetVersionZip g).isSome = (gltfAssetVersionStd g).isSome) ∧
    (∀ a v, g.asset = some a → a.version = some v → v ≠ "" →
      gltfAssetVersionZip g = gltfAssetVersionStd g) ∧
    (g.asset = none →
      gltfAssetVersionZip g = some "GLTF file missing required \x22asset\x22 property" ∧
      gltfAssetVersionStd g = some "Missing required \x22asset\x22 property") ∧
    (∀ a, g.asset = some a → (a.version = none ∨ a.version = some "") →
      gltfAssetVersionZip g = some "GLTF file missing version" ∧
      gltfAssetVersionStd g = some "Missing GLTF version") := by
  cases hA : g.asset with
  | none =>
    refine ⟨?_, fun a v ha _ _ => Option.noConfusion ha, fun _ => ⟨?_, ?_⟩,
      fun a ha _ => Option.noConfusion ha⟩
    · simp [gltfAssetVersionZip, gltfAssetVersionStd, hA]
    · simp [gltfAssetVersionZip, hA]
    · simp [gltfAssetVersionStd, hA]
  | some a =>
    cases hV : a.version with
    | none =>
      refine ⟨?_, fun a' v' ha hv _ => ?_, fun hn => Option.noConfusion hn,
        fun a' ha _ => ⟨?_, ?_⟩⟩
      · simp [gltfAssetVersionZip, gltfAssetVersionStd, hA, hV]
      · injection ha with h
        subst h
        rw [hV] at hv
        exact Option.noConfusion hv
      · simp [gltfAssetVersionZip, hA, hV]
      · simp [gltfAssetVersionStd, hA, hV]
    | some v =>
      by_cases hvE : v = ""
      · subst hvE
        refine ⟨?_, fun a' v' ha hv hne => ?_, fun hn => Option.noConfusion hn,
          fun a' ha _ => ⟨?_, ?_⟩⟩
        · simp [gltfAssetVersionZip, gltfAssetVersionStd, hA, hV]
        · injection ha with h
          subst h
          rw [hV] at hv
          injection hv with h2
          exact absurd h2.symm hne
        · simp [gltfAssetVersionZip, hA, hV]
        · simp [gltfAssetVersionStd, hA, hV]
      · refine ⟨?_, fun a' v' ha hv hne => ?_, fun hn => Option.noConfusion hn,
          fun a' ha hvv => ?_⟩
        · cases hb : jsLtTwo (jsParseFloat v) <;>
            simp [gltfAssetVersionZip, gltfAssetVersionStd, hA, hV, hvE, hb]
        · cases hb : jsLtTwo (jsParseFloat v) <;>
            simp [gltfAssetVersionZip, gltfAssetVersionStd, hA, hV, hvE, hb]
        · injection ha with h
          subst h
          rw [hV] at hvv
          rcases hvv with hvv | hvv
          · exact Option.noConfusion hvv
          · injection hvv with h2
            exact absurd h2 hvE

/-- Application of the agreement: the version-1.0 document gets the same
option from both fragments, and the assetless document gets the embedded
wording. -/
theorem gltf_version_checks_agreement_app :
    gltfAssetVersionZip docVersion1 = gltfAssetVersionStd docVersion1 ∧
    gltfAssetVersionZip docNoAsset =
      some "GLTF file missing required \x22asset\x22 property" :=
  ⟨(gltf_version_checks_agreement docVersion1).2.1 { version := some "1.0" } "1.0"
      (by decide) (by decide) (by decide),
   ((gltf_version_checks_agreement docNoAsset).2.2.1 (by decide)).1⟩

/-- Counterexample to C9 as stated: in a complete run the first callback
invocation already shows the file-integrity stage as processing — the
all-pending snapshot is never emitted, because the source sets
stages[0].status to processing before the first onStageUpdate call. -/
theorem validateModel_first_snapshot_processing :
    (validateModel envGltfOk fileGltf).trace.head? =
      some [{ stage := "file-integrity", status := "processing" },
            { stage := "format-validation", status := "pending" },
            { stage := "ar-compatibility", status := "pending" }] ∧
    (validateModel envGltfOk fileGltf).trace.head? ≠ some initialStages :=
  ⟨by decide, by decide⟩


/-- C9 (amended): the stages are created all pending, but the first
callback invocation always presents file-integrity as processing with the
other two still pending; the callback is invoked again after each batch
of stage transitions, the final invocation carrying the settled stage
collection the verdict is computed from. -/
theorem validateModel_trace_shape (env : JsEnv) (f : JsFile) :
    (validateModel env f).trace.head? =
      some [{ stage := "file-integrity", status := "processing" },
            { stage := "format-validation", status := "pending" },
            { stage := "ar-compatibility", status := "pending" }] ∧
    (validateModel env f).trace.getLast? = some (validateModel env f).stages ∧
    2 ≤ (validateModel env f).trace.length := by
  cases hI : (validateFileIntegrity f).valid with
  | false =>
    simp only [validateModel, hI, Bool.false_eq_true, if_false]
    refine ⟨?_, ?_, ?_⟩ <;> first | trivial | simp
  | true =>
    by_cases hE : extOf f.name ≠ ".glb" ∧ extOf f.name ≠ ".gltf" ∧ extOf f.name ≠ ".zip"
    · simp only [validateModel, hI, if_true, if_pos hE]
      refine ⟨?_, ?_, ?_⟩ <;> first | trivial | simp
    · cases hF : (validateFormat env f (extOf f.name)).valid with
      | false =>
        simp only [validateModel, hI, if_true, if_neg hE, hF, Bool.false_eq_true, if_false]
        refine ⟨?_, ?_, ?_⟩ <;> first | trivial | simp
      | true =>
        simp only [validateModel, hI, if_true, if_neg hE, hF, if_true]
        refine ⟨?_, ?_, ?_⟩ <;> first | trivial | simp

/-- Auxiliary invariant: folding the normalization step over parts that
contain no "." segment, starting from an accumulator free of empty, "."
and ".." segments, yields a segment list free of them too. -/
lemma normStep_foldl_no_bad (parts : List String) (acc : List String)
    (hp : ∀ p ∈ parts, p ≠ ".")
    (ha : ∀ s ∈ acc, s ≠ "" ∧ s ≠ "." ∧ s ≠ "..") :
    ∀ s ∈ parts.foldl normStep acc, s ≠ "" ∧ s ≠ "." ∧ s ≠ ".." := by
  induction parts generalizing acc with
  | nil => exact ha
  | cons p rest ih =>
    intro s hs
    refine ih (normStep acc p) (fun q hq => hp q (List.mem_cons_of_mem p hq)) ?_ s hs
    intro t ht
    unfold normStep at ht
    by_cases h1 : p = ".."
    · rw [if_pos h1] at ht
      exact ha t (List.dropLast_subset _ ht)
    · rw [if_neg h1] at ht
      by_cases h2 : p = ""
      · rw [if_neg (not_not_intro h2)] at ht
        exact ha t ht
      · rw [if_pos h2] at ht
        rcases List.mem_append.mp ht with hin | hone
        · exact ha t hin
        · have he : t = p := List.mem_singleton.mp hone
          subst he
          exact ⟨h2, hp t (List.mem_cons_self t rest), h1⟩


/-- C10: for every base directory and relative uri the resolved segment
list contains no empty, "." or ".." segment — so the joined path never
denotes a location above the archive root — a ".." part removes exactly
the last retained segment, a ".." on an empty accumulator is silently
discarded, and the returned path is the slash join of the segments; the
function is total, so it never throws. -/
theorem resolveZipPath_normalized (baseDir relativePath : String) :
    (∀ s ∈ resolveZipSegs baseDir relativePath, s ≠ "" ∧ s ≠ "." ∧ s ≠ "..") ∧
    (∀ acc : List String, normStep acc ".." = acc.dropLast) ∧
    normStep [] ".." = [] ∧
    resolveZipPath baseDir relativePath =
      String.intercalate "/" (resolveZipSegs baseDir relativePath) := by
  refine ⟨?_, fun acc => rfl, rfl, rfl⟩
  intro s hs
  simp only [resolveZipSegs] at hs
  refine normStep_foldl_no_bad _ [] ?_ (by simp) s hs
  intro p hp
  have := (List.mem_filter.mp hp).2
  exact of_decide_eq_true this

/-- Application of the normalization theorem at a concrete resolution:
models/ joined with ../tex/./logo.png resolves to tex/logo.png whose
segments are clean. -/
theorem resolveZipPath_normalized_app :
    ("tex" ≠ "" ∧ "tex" ≠ "." ∧ "tex" ≠ "..") ∧
    resolveZipPath "models/" "../tex/./logo.png" =
      String.intercalate "/" (resolveZipSegs "models/" "../tex/./logo.png") ∧
    resolveZipPath "models/" "../tex/./logo.png" = "tex/logo.png" :=
  ⟨(resolveZipPath_normalized "models/" "../tex/./logo.png").1 "tex" (by decide),
   (resolveZipPath_normalized "models/" "../tex/./logo.png").2.2.2,
   by decide⟩
